import Mathlib

/-!
Shallow embedding of the AURORA-INTEL back end (Express server in
`server.js`, chatbot helper in `Back-End/chatbot.js`) for checking the
natural-language specification.  External collaborators (MongoDB, bcrypt,
node crypto, nodemailer, the Gemini REST call, timers) are abstracted:
stores become explicit values threaded through the handlers, the model
call becomes an explicit outcome parameter, and hashing becomes a tagged
constructor / an injective stand-in.  Fire-and-forget e-mail sends and the
deferred OTP-cleanup `setTimeout` are not modelled (they do not affect the
request/response behaviour the claims are about).
-/

/-- JavaScript whitespace class `\s` restricted to the characters that can
actually occur in this code path (space, tab, LF, CR, VT, FF, NBSP). -/
def isJsSpace (c : Char) : Bool :=
  c == ' ' || c == '\t' || c == '\n' || c == '\r' ||
  c == Char.ofNat 11 || c == Char.ofNat 12 || c == Char.ofNat 160

/-- JavaScript `String.prototype.trim` on a character list. -/
def trimList (l : List Char) : List Char :=
  ((l.dropWhile isJsSpace).reverse.dropWhile isJsSpace).reverse

/-- JavaScript `String.prototype.trim`. -/
def jsTrim (s : String) : String :=
  String.mk (trimList s.data)

/-- JavaScript `String.prototype.toLowerCase` (ASCII; the server only ever
lowercases e-mail addresses and error messages). -/
def lowerStr (s : String) : String :=
  String.mk (s.data.map Char.toLower)

/-- Whether `needle` occurs as a contiguous substring of `hay`
(JavaScript `String.prototype.includes`). -/
def listContains (hay needle : List Char) : Bool :=
  (List.range (hay.length + 1)).any fun i => needle.isPrefixOf (hay.drop i)

/-- The domain part of `/^[^\s@]+@[^\s@]+\.[^\s@]+$/` after the `@`:
`[^\s@]+\.[^\s@]+` succeeds exactly when some `.` sits at an interior
position (at least one character on each side; `[^\s@]` itself admits
further dots). -/
def domHasInteriorDot (l : List Char) : Bool :=
  (List.range l.length).any fun i =>
    (l.get? i == some '.') && decide (1 ≤ i) && decide (i + 2 ≤ l.length)

/-- The e-mail shape test `/^[^\s@]+@[^\s@]+\.[^\s@]+$/` used by both
`request-otp` and `verify-otp`: no whitespace anywhere, exactly one `@`,
a non-empty local part, and an interior dot in the domain part. -/
def validEmail (s : String) : Bool :=
  let l := s.data
  (l.all fun c => !isJsSpace c) &&
  (l.count '@' == 1) &&
  decide (1 ≤ (l.takeWhile (· != '@')).length) &&
  domHasInteriorDot ((l.dropWhile (· != '@')).drop 1)

/-- The OTP shape test `/^\d{6}$/`. -/
def validOtpShape (s : String) : Bool :=
  s.length == 6 && s.data.all Char.isDigit

/-- Password values.  bcrypt is an external library with a random salt, so
the embedding keeps passwords symbolic: `Pw.hashed s` stands for a bcrypt
hash of the plaintext `s` (the result of `bcrypt.hash(s, 10)`), `Pw.plain s`
for the raw string `s`. -/
inductive Pw where
  | plain (s : String)
  | hashed (s : String)
deriving DecidableEq, Repr

/-- A persisted `User` document (`models/User.js` fields used by the
specified core). -/
structure User where
  name : String
  email : String
  password : Pw
  photo : String
  passwordResetToken : Option String := none
  passwordResetExpires : Option Nat := none
deriving DecidableEq, Repr

/-- Modelled from the spec: `models/User.js` is not under `src/` (only its
callers are), so its pre-save hook — which the reset route relies on via
`user.password = password; // The pre-save hook ... should handle hashing` —
is modelled from spec section 4.2: resetting goes "through the same hashing
path as signup", i.e. saving a document whose password field holds a
plaintext hashes it with bcrypt, and an already-hashed password is kept
as-is. -/
def userSave (u : User) : User :=
  match u.password with
  | .plain s => { u with password := .hashed s }
  | .hashed _ => u

/-- One pending-signup entry of the in-memory `otpStore`
(`{ otp, expires }`). -/
structure OtpEntry where
  otp : String
  expires : Nat
deriving DecidableEq, Repr

/-- The in-memory `otpStore` `Map`, as a lookup function from e-mail key to
pending entry. -/
def OtpStore : Type := String → Option OtpEntry

/-- `otpStore.set(k, v)`. -/
def otpSet (s : OtpStore) (k : String) (v : OtpEntry) : OtpStore :=
  fun e => if e = k then some v else s e

/-- `otpStore.delete(k)`. -/
def otpDelete (s : OtpStore) (k : String) : OtpStore :=
  fun e => if e = k then none else s e

/-- Outcome of `POST /api/auth/request-otp`. -/
inductive ReqResult where
  | invalidEmail       -- 400 'Valid email is required.'
  | conflict           -- 409 'Email already registered. Please Login.'
  | ok                 -- 200, entry stored, code e-mailed
deriving DecidableEq, Repr

/-- `POST /api/auth/request-otp` (`server.js`).  `now` is `Date.now()`,
`otp` the 6-digit code `Math.floor(100000 + Math.random()*900000)` produced
by the handler (randomness is a parameter of the embedding), `users` the
`User.findOne({email})` view of the database.  The deferred
`setTimeout` cleanup and the `sendEmail` call are external effects not
modelled here. -/
def requestOtp (now : Nat) (email otp : String)
    (users : String → Option User) (store : OtpStore) :
    ReqResult × OtpStore :=
  if !validEmail email then (.invalidEmail, store)
  else
    let normalizedEmail := lowerStr email
    match users normalizedEmail with
    | some _ => (.conflict, store)
    | none =>
        (.ok, otpSet store normalizedEmail ⟨otp, now + 5 * 60 * 1000⟩)

/-- The input validation of `POST /api/auth/verify-otp`:
`!name?.trim() || !email || !password || !otp || password.length < 6 ||
!emailRe.test(email) || !/^\d{6}$/.test(otp)` (negated). -/
def validVerifyInput (name email password otp : String) : Bool :=
  jsTrim name != "" && email != "" && password != "" && otp != "" &&
  decide (6 ≤ password.length) && validEmail email && validOtpShape otp

/-- Outcome of `POST /api/auth/verify-otp`. -/
inductive VerifyResult where
  | invalidInput                -- 400 basic shape checks
  | notFoundOrExpired           -- 400 'OTP is invalid or has expired. ...'
  | mismatch                    -- 400 'Invalid OTP entered.'
  | conflict                    -- 409 race: user created in the interim
  | created (u : User)          -- 201, sanitized user in the response
deriving DecidableEq, Repr

/-- The default profile picture given to a fresh user. -/
def defaultPhotoUrl : String := "/uploads/default-profile-placeholder.png"

/-- `POST /api/auth/verify-otp` (`server.js`).  Returns the HTTP outcome,
the updated `otpStore` and the updated user database.  `users` is the
database as seen by the `User.findOne` re-check in step 4 (the race window
is captured by letting it differ from the one `request-otp` saw). -/
def verifyOtp (now : Nat) (name email password otp : String)
    (users : String → Option User) (store : OtpStore) :
    VerifyResult × OtpStore × (String → Option User) :=
  if !validVerifyInput name email password otp then (.invalidInput, store, users)
  else
    let normalizedEmail := lowerStr email
    match store normalizedEmail with
    | none => (.notFoundOrExpired, otpDelete store normalizedEmail, users)
    | some entry =>
      if entry.expires < now then
        (.notFoundOrExpired, otpDelete store normalizedEmail, users)
      else if entry.otp != otp then
        (.mismatch, store, users)
      else
        let store' := otpDelete store normalizedEmail
        match users normalizedEmail with
        | some _ => (.conflict, store', users)
        | none =>
            let newUser := userSave
              { name := jsTrim name
                email := normalizedEmail
                password := .hashed password
                photo := defaultPhotoUrl }
            (.created newUser, store',
             fun e => if e = normalizedEmail then some newUser else users e)

/-- Injective stand-in for the external `crypto.createHash('sha256')
.update(s).digest('hex')` call (node `crypto` is an external collaborator;
the routes only ever compare digests for equality). -/
def sha256Hex (s : String) : String := "sha256:" ++ s

/-- An HTTP response as far as the claims are concerned: status code and
the message/error string of the JSON body. -/
structure HttpResponse where
  status : Nat
  body : String
deriving DecidableEq, Repr

/-- The generic body `POST /api/auth/forgot-password` answers with, whether
or not the e-mail exists. -/
def forgotPasswordGenericMsg : String :=
  "✅ If an account with that email exists, a password reset link has been sent."

/-- `POST /api/auth/forgot-password` (`server.js`).  `user?` is the
`User.findOne({email: normalizedEmail})` result, `resetToken` the random
`crypto.randomBytes(32).toString('hex')` value (randomness is a parameter).
Returns the HTTP response and the saved user document (the reset e-mail
send is fire-and-forget and not modelled). -/
def forgotPassword (now : Nat) (email : String) (user? : Option User)
    (resetToken : String) : HttpResponse × Option User :=
  if email = "" then
    (⟨400, "Please provide your email address."⟩, user?)
  else
    match user? with
    | none => (⟨200, forgotPasswordGenericMsg⟩, none)
    | some u =>
        let hashedToken := sha256Hex resetToken
        let u' := userSave
          { u with passwordResetToken := some hashedToken
                   passwordResetExpires := some (now + 3600000) }
        (⟨200, forgotPasswordGenericMsg⟩, some u')

/-- `User.findOne({passwordResetToken: hashed, passwordResetExpires:
{$gt: Date.now()}})` over an explicit list of user documents. -/
def findOneByResetToken (db : List User) (hashed : String) (now : Nat) :
    Option User :=
  db.find? fun u =>
    u.passwordResetToken == some hashed &&
    (match u.passwordResetExpires with
     | some e => decide (now < e)
     | none => false)

/-- Outcome of `POST /api/auth/reset-password/:token`. -/
inductive ResetResult where
  | missingFields          -- 400 'Password and confirmation are required.'
  | tooShort               -- 400 'Password must be at least 6 characters long.'
  | mismatch               -- 400 'Passwords do not match.'
  | invalidOrExpired       -- 400 'Password reset token is invalid or has expired. ...'
  | ok (saved : User)      -- 200, document saved through the pre-save hook
deriving DecidableEq, Repr

/-- `POST /api/auth/reset-password/:token` (`server.js`).  The route sets
`user.password = password` (raw) together with clearing the two reset
fields and calls `user.save()`, whose hashing behaviour is `userSave`. -/
def resetPassword (now : Nat) (tok password confirmPassword : String)
    (db : List User) : ResetResult :=
  if password = "" || confirmPassword = "" then .missingFields
  else if password.length < 6 then .tooShort
  else if password != confirmPassword then .mismatch
  else
    match findOneByResetToken db (sha256Hex tok) now with
    | none => .invalidOrExpired
    | some u =>
        .ok (userSave
          { u with password := .plain password
                   passwordResetToken := none
                   passwordResetExpires := none })

/-- The HTML-tag removal `text.replace(/<\/?[^>]+(>|$)/g, "")` of
`formatResponsePlainText`.  The scanner state is `some pend` while inside a
candidate tag opened by `<` (with `pend` the characters gathered so far,
all distinct from `>`): backtracking over `\/?` makes the regex consume the
maximal non-`>` run after `<` followed by `>` or end-of-input, and fail
exactly when that run is empty (`<>` or a final lone `<`). -/
def removeTagsAux : List Char → Option (List Char) → List Char
  | [], none => []
  | [], some pend => if pend.isEmpty then ['<'] else []
  | c :: rest, none =>
      if c = '<' then removeTagsAux rest (some [])
      else c :: removeTagsAux rest none
  | c :: rest, some pend =>
      if c = '>' then
        if pend.isEmpty then '<' :: '>' :: removeTagsAux rest none
        else removeTagsAux rest none
      else removeTagsAux rest (some (pend ++ [c]))

/-- `text.replace(/<\/?[^>]+(>|$)/g, "")`. -/
def removeTags (l : List Char) : List Char :=
  removeTagsAux l none

/-- ``text.replace(/[*#_`~]/g, "")`` — drop markdown emphasis, heading,
underscore, backtick (character 96) and tilde characters. -/
def removeMdChars (l : List Char) : List Char :=
  l.filter fun c =>
    !(c == '*' || c == '#' || c == '_' || c == Char.ofNat 96 || c == '~')

/-- `text.replace(/ /g, " ")` — normalize non-breaking spaces. -/
def nbspToSpace (l : List Char) : List Char :=
  l.map fun c => if c = Char.ofNat 160 then ' ' else c

/-- Step 1 of `formatResponsePlainText`: basic cleaning and trim. -/
def cleanedOf (text : String) : List Char :=
  trimList (nbspToSpace (removeMdChars (removeTags text.data)))

/-- `cleaned.split('\n')` on character lists. -/
def splitOnChar (sep : Char) : List Char → List (List Char)
  | [] => [[]]
  | c :: rest =>
      match splitOnChar sep rest with
      | [] => if c = sep then [[], []] else [[c]]
      | h :: t => if c = sep then [] :: h :: t else (c :: h) :: t

/-- `line.replace(/\s+/g, " ")` — collapse every whitespace run to one
space. -/
def collapseWs : List Char → List Char
  | [] => []
  | [c] => if isJsSpace c then [' '] else [c]
  | c :: d :: rest =>
      if isJsSpace c then
        if isJsSpace d then collapseWs (d :: rest)
        else ' ' :: collapseWs (d :: rest)
      else c :: collapseWs (d :: rest)

/-- The decorative-line test `/^\s*(\d+\.|[-*+])\s*$/`: optional
whitespace, then either digits followed by a dot or a single bullet
character, then optional whitespace. -/
def isBareMarker (l : List Char) : Bool :=
  let l1 := l.dropWhile isJsSpace
  match l1 with
  | [] => false
  | c :: rest =>
      if c = '-' || c = '*' || c = '+' then rest.all isJsSpace
      else
        let ds := l1.takeWhile Char.isDigit
        if ds.isEmpty then false
        else
          match l1.drop ds.length with
          | '.' :: rest2 => rest2.all isJsSpace
          | _ => false

/-- The per-line filter of step 2: drop empty lines, lines with no
alphanumeric content, and very short bare list markers. -/
def lineKept (l : List Char) : Bool :=
  decide (l ≠ []) && l.any Char.isAlphanum &&
  !(decide (l.length ≤ 2) && isBareMarker l)

/-- Step 2 of `formatResponsePlainText`: split into lines, normalize each,
filter decorative/empty ones. -/
def linesOf (text : String) : List (List Char) :=
  ((splitOnChar '\n' (cleanedOf text)).map fun ln =>
    trimList (collapseWs ln)).filter lineKept

/-- The second alternative `\n\s*\n` of the sentence-split regex, checked
against one maximal whitespace run: with two or more newlines in the run
the match starts at the first newline and (greedy `\s*` with backtracking)
ends at the last one; the pieces around the match are returned. -/
def alt2Split (pend : List Char) : Option (List Char × List Char) :=
  if 2 ≤ pend.count '\n' then
    some (pend.takeWhile (· != '\n'), (pend.reverse.takeWhile (· != '\n')).reverse)
  else none

/-- `rejoinedText.split(/(?<=[.?!])\s+(?=[A-Z0-9])|\n\s*\n/)`.
`acc` is the piece being built, `pend` the current (still open) whitespace
run, `prevEnd` whether the character right before that run was `.`, `?` or
`!` (the lookbehind).  The first alternative can only fire at the start of
a whitespace run (inside the run the lookbehind sees whitespace), the
second at the first newline of the run that has a later newline. -/
def sentSplitGo (acc pend : List Char) (prevEnd : Bool) :
    List Char → List (List Char)
  | [] =>
      (match alt2Split pend with
       | some (before, after) => [acc ++ before, after]
       | none => [acc ++ pend])
  | c :: rest =>
      if isJsSpace c then sentSplitGo acc (pend ++ [c]) prevEnd rest
      else if pend.isEmpty then
        sentSplitGo (acc ++ [c]) [] (c == '.' || c == '?' || c == '!') rest
      else if prevEnd && (c.isUpper || c.isDigit) then
        acc :: sentSplitGo [c] [] (c == '.' || c == '?' || c == '!') rest
      else
        match alt2Split pend with
        | some (before, after) =>
            (acc ++ before) ::
              sentSplitGo (after ++ [c]) [] (c == '.' || c == '?' || c == '!') rest
        | none =>
            sentSplitGo (acc ++ pend ++ [c]) [] (c == '.' || c == '?' || c == '!') rest

/-- Step 3 of `formatResponsePlainText`: re-segment the joined lines into
sentence-like units and keep the meaningful ones. -/
def segmentsOf (text : String) : List (List Char) :=
  ((sentSplitGo [] [] false (List.intercalate [' '] (linesOf text))).map
      fun s => trimList (collapseWs s)).filter
    fun s => decide (1 < s.length) && s.any Char.isAlpha

/-- `segments.join(" ").trim()` — the plain-prose rendering used when fewer
than 3 segments remain. -/
def joinedPlain (segs : List (List Char)) : String :=
  String.mk (trimList (List.intercalate [' '] segs))

/-- `s.replace(/^\s*(?:[*\-+]|\d+\.?)\s*/, "")` — strip one leading bullet
or number the model itself emitted (no change when the marker group cannot
match). -/
def stripLeadingMarker (l : List Char) : List Char :=
  let l1 := l.dropWhile isJsSpace
  match l1 with
  | [] => l
  | c :: rest =>
      if c = '*' || c = '-' || c = '+' then rest.dropWhile isJsSpace
      else if c.isDigit then
        let ds := l1.takeWhile Char.isDigit
        let r2 := l1.drop ds.length
        let r3 := match r2 with
                  | '.' :: t => t
                  | _ => r2
        r3.dropWhile isJsSpace
      else l

/-- The numbered rendering used when 3 or more segments remain:
line `i` is `"${i+1}. ${segment stripped of its own leading marker}"`. -/
def renderNumbered (segs : List (List Char)) : List Char :=
  List.intercalate ['\n']
    (segs.enum.map fun p =>
      (toString (p.1 + 1)).data ++ '.' :: ' ' :: trimList (stripLeadingMarker p.2))

/-- `formatResponsePlainText` (`Back-End/chatbot.js`): the deterministic
plain-text normalizer applied to every successful model answer. -/
def formatResponsePlainText (text : String) : String :=
  if linesOf text = [] then
    "I'm sorry, I couldn't generate a meaningful response based on that."
  else if (segmentsOf text).length < 3 then
    joinedPlain (segmentsOf text)
  else
    String.mk (renderNumbered (segmentsOf text))

/-- Outcome of the external Gemini REST call made by
`generateChatbotAnswer`, covering every branch the handler distinguishes:
a 200 with candidate text, a non-OK HTTP response with or without a
`promptFeedback.blockReason`, a 200 without usable text (finish reason
`SAFETY`, `MAX_TOKENS`, or anything else), or a thrown fetch/JSON error. -/
inductive GeminiOutcome where
  | ok (rawText : String)
  | blocked (reason ratings : String)
  | apiError (msg : String)
  | finishSafety
  | finishMaxTokens
  | noText
  | fetchFailed (msg : String)
deriving DecidableEq, Repr

/-- Whether the upstream outcome is one of the failure branches. -/
def GeminiOutcome.isFailure : GeminiOutcome → Bool
  | .ok _ => false
  | _ => true

/-- The `error.message` produced for each failure branch of
`generateChatbotAnswer`'s `try` block. -/
def geminiErrMsg : GeminiOutcome → String
  | .ok _ => ""
  | .blocked reason ratings =>
      "Content blocked: " ++ reason ++ ". Ratings: " ++ ratings
  | .apiError msg => "Gemini API Error: " ++ msg
  | .finishSafety => "Response generation stopped due to safety settings."
  | .finishMaxTokens =>
      "Response truncated because maximum output tokens were reached."
  | .noText => "No valid text content received from Gemini."
  | .fetchFailed msg => msg

/-- The `{ answer }` object `generateChatbotAnswer` resolves with. -/
structure ChatResult where
  answer : String
deriving DecidableEq, Repr

/-- `generateChatbotAnswer` (`Back-End/chatbot.js`): empty-after-trim
prompts short-circuit to a canned answer; a successful call is normalized
by `formatResponsePlainText`; every failure is caught by the surrounding
`catch` and turned into a SUCCESSFUL `{ answer }` object embedding the
error message — the function never rejects. -/
def generateChatbotAnswer (prompt : String) (oc : GeminiOutcome) : ChatResult :=
  if jsTrim prompt = "" then
    ⟨"Please provide a question or topic to discuss."⟩
  else
    match oc with
    | .ok rawText => ⟨formatResponsePlainText rawText⟩
    | g => ⟨"I encountered an issue: " ++ geminiErrMsg g ++ ". Please try again."⟩

/-- `POST /api/chatbot` (`server.js`): the only rejection is the falsy
check `if (!prompt)`; otherwise the route always answers 200 with whatever
`generateChatbotAnswer` resolved to (its `catch` branch is unreachable
because `generateChatbotAnswer` never rejects). -/
def chatbotRoute (prompt : String) (oc : GeminiOutcome) : Nat × String :=
  if prompt = "" then (400, "Prompt is required.")
  else (200, (generateChatbotAnswer prompt oc).answer)

/-- One message of a `Conversation` document. -/
structure Msg where
  role : String
  content : String
  timestamp : Nat
deriving DecidableEq, Repr

/-- A `Conversation` document (fields touched by the message route). -/
structure Conversation where
  messages : List Msg
  lastActivity : Nat
deriving DecidableEq, Repr

/-- The outcome of the `Promise.race` in
`POST /api/conversations/:id/messages`: either the 45-second timer fired
first, or `generateChatbotAnswer` resolved (abstracted by its upstream
outcome). -/
inductive TurnOutcome where
  | timeout
  | model (g : GeminiOutcome)
deriving DecidableEq, Repr

/-- The bound of the `Promise.race` timer (`const timeout = 45000`). -/
def chatTimeoutMs : Nat := 45000

/-- HTTP outcome of `POST /api/conversations/:id/messages`. -/
inductive TurnResponse where
  | badRequest (msg : String)          -- 400
  | notFound                           -- 404 'Conversation not found.'
  | ok (answer : String)               -- 200 { answer }
  | errStatus (status : Nat) (msg : String)  -- thrown, status set in catch
deriving DecidableEq, Repr

/-- The status the catch block attaches before `next(error)`:
`408` when the message contains "timed out", `502` for the invalid-format
throw, otherwise the global handler's `500`. -/
def errorStatusOf (msg : String) : Nat :=
  if listContains (lowerStr msg).data "timed out".data then 408
  else if listContains (lowerStr msg).data "invalid chatbot response format".data then 502
  else 500

/-- Build the `errStatus` response of a thrown error. -/
def thrownError (msg : String) : TurnResponse :=
  .errStatus (errorStatusOf msg) msg

/-- `POST /api/conversations/:id/messages` (`server.js`): validate the
prompt, look the conversation up, race the model call against the
45-second timer, and only then push the (user, bot) message pair and the
new `lastActivity` in ONE `findByIdAndUpdate`.  `now` stands for the
timestamps `new Date()` of both messages.  Returns the response and the
conversation state after the request. -/
def postConversationMessage (now : Nat) (prompt : String)
    (conv? : Option Conversation) (oc : TurnOutcome) :
    TurnResponse × Option Conversation :=
  if jsTrim prompt = "" then (.badRequest "Prompt cannot be empty.", conv?)
  else
    match conv? with
    | none => (.notFound, none)
    | some conv =>
        match oc with
        | .timeout => (thrownError "Chatbot request timed out", some conv)
        | .model g =>
            let result := generateChatbotAnswer prompt g
            if jsTrim result.answer = "" then
              (thrownError "Invalid chatbot response format received from generation logic.",
               some conv)
            else
              let userMessage : Msg := ⟨"user", jsTrim prompt, now⟩
              let botMessage : Msg := ⟨"bot", result.answer, now⟩
              (.ok result.answer,
               some ⟨conv.messages ++ [userMessage, botMessage], now⟩)

/-! ### Helper lemmas shared by several claims -/

theorem otpSet_self (s : OtpStore) (k : String) (v : OtpEntry) :
    otpSet s k v k = some v := by
  simp [otpSet]

theorem otpDelete_self (s : OtpStore) (k : String) :
    otpDelete s k k = none := by
  simp [otpDelete]

theorem validEmail_of_validVerifyInput {name email password otp : String}
    (h : validVerifyInput name email password otp = true) :
    validEmail email = true := by
  cases hve : validEmail email with
  | true => rfl
  | false => rw [validVerifyInput, hve] at h; simp at h

theorem verifyOtp_notFound (now : Nat) (name email password otp : String)
    (users : String → Option User) (store : OtpStore)
    (hv : validVerifyInput name email password otp = true)
    (h : store (lowerStr email) = none) :
    verifyOtp now name email password otp users store =
      (.notFoundOrExpired, otpDelete store (lowerStr email), users) := by
  simp [verifyOtp, hv, h]

theorem validEmail_false_of_space {email : String} {c : Char}
    (hc : c ∈ email.data) (hw : isJsSpace c = true) :
    validEmail email = false := by
  unfold validEmail
  have : (email.data.all fun c => !isJsSpace c) = false := by
    rw [List.all_eq_false]
    exact ⟨c, hc, by simp [hw]⟩
  simp [this]

theorem trimList_ne_nil {l : List Char} {c : Char}
    (hc : c ∈ l) (hw : isJsSpace c = false) : trimList l ≠ [] := by
  intro h
  unfold trimList at h
  rw [List.reverse_eq_nil_iff, List.dropWhile_eq_nil_iff] at h
  have hcd : c ∈ l.dropWhile isJsSpace := by
    have hsplit := List.takeWhile_append_dropWhile (p := isJsSpace) (l := l)
    rw [← hsplit] at hc
    rcases List.mem_append.1 hc with h1 | h2
    · exact absurd (List.mem_takeWhile_imp h1) (by simp [hw])
    · exact h2
  have := h c (List.mem_reverse.2 hcd)
  rw [hw] at this
  cases this

theorem jsTrim_ne_empty {s : String} {c : Char}
    (hc : c ∈ s.data) (hw : isJsSpace c = false) : jsTrim s ≠ "" := by
  intro h
  unfold jsTrim at h
  have : trimList s.data = ([] : List Char) := by
    have := congrArg String.data h
    simpa using this
  exact trimList_ne_nil hc hw this

/-- Hex-digit test for the characters of a `crypto...digest('hex')` token. -/
def isHexDigitChar (c : Char) : Bool :=
  c.isDigit || ('a' ≤ c && c ≤ 'f') || ('A' ≤ c && c ≤ 'F')

/-- Whether some contiguous run of `n` characters of `l` consists solely of
hex digits. -/
def hasHexRun (l : List Char) (n : Nat) : Bool :=
  (List.range (l.length + 1)).any fun i =>
    decide (((l.drop i).take n).length = n) &&
    ((l.drop i).take n).all isHexDigitChar

theorem hasHexRun_of_append (s t r : List Char)
    (h : t.length = 64) (hall : t.all isHexDigitChar = true) :
    hasHexRun (s ++ t ++ r) 64 = true := by
  unfold hasHexRun
  rw [List.any_eq_true]
  refine ⟨s.length, ?_, ?_⟩
  · rw [List.mem_range]
    simp [List.length_append]
    omega
  · have hdrop : (s ++ t ++ r).drop s.length = t ++ r := by
      rw [List.append_assoc]
      exact List.drop_left s (t ++ r)
    have htake : (t ++ r).take 64 = t := by
      rw [← h]
      exact List.take_left t r
    rw [hdrop, htake]
    simp [h, hall]

/-- A 64-character hex string, shaped like a raw
`crypto.randomBytes(32).toString('hex')` reset token. -/
def tok64 : String := String.mk (List.replicate 64 'a')

/-- A stored user carrying a hashed reset token, for concrete witnesses. -/
def sampleResetUser : User :=
  ⟨"Rae", "rae@example.com", .hashed "oldpass", defaultPhotoUrl,
   some (sha256Hex "tok123"), some 999999⟩

/-! ### Claim theorems -/

/-- C1: for an e-mail with no existing user, `request-otp` stores a pending
entry with expiry `now + 5 minutes`, a `verify-otp` with valid inputs and
the correct code at or before the expiry succeeds exactly once — deleting
the pending entry and creating the user — and a second `verify-otp` with
the same code then fails with the not-found-or-expired error, the entry
being gone. -/
theorem otp_request_then_verify_succeeds_exactly_once
    (now now2 : Nat) (name email password otp : String)
    (users : String → Option User) (store : OtpStore)
    (hvv : validVerifyInput name email password otp = true)
    (hnoUser : users (lowerStr email) = none)
    (hnow : now2 ≤ now + 5 * 60 * 1000) :
    (requestOtp now email otp users store).1 = .ok ∧
    (requestOtp now email otp users store).2 (lowerStr email) =
      some ⟨otp, now + 5 * 60 * 1000⟩ ∧
    ∀ users2 : String → Option User, users2 (lowerStr email) = none →
      (verifyOtp now2 name email password otp users2
          (requestOtp now email otp users store).2).1 =
        .created ⟨jsTrim name, lowerStr email, .hashed password,
                  defaultPhotoUrl, none, none⟩ ∧
      (verifyOtp now2 name email password otp users2
          (requestOtp now email otp users store).2).2.1 (lowerStr email) = none ∧
      (verifyOtp now2 name email password otp users2
          (requestOtp now email otp users store).2).2.2 (lowerStr email) =
        some ⟨jsTrim name, lowerStr email, .hashed password,
              defaultPhotoUrl, none, none⟩ ∧
      ∀ (now3 : Nat) (users3 : String → Option User),
        (verifyOtp now3 name email password otp users3
            (verifyOtp now2 name email password otp users2
              (requestOtp now email otp users store).2).2.1).1 =
          .notFoundOrExpired := by
  have hev : validEmail email = true := validEmail_of_validVerifyInput hvv
  have hreq : requestOtp now email otp users store =
      (.ok, otpSet store (lowerStr email) ⟨otp, now + 5 * 60 * 1000⟩) := by
    simp [requestOtp, hev, hnoUser]
  refine ⟨by rw [hreq], by rw [hreq]; simp [otpSet], ?_⟩
  intro users2 hnone2
  rw [hreq]
  have hexp : ¬ (now + 5 * 60 * 1000 < now2) := by omega
  have hver : verifyOtp now2 name email password otp users2
      (otpSet store (lowerStr email) ⟨otp, now + 5 * 60 * 1000⟩) =
      (.created ⟨jsTrim name, lowerStr email, .hashed password,
                 defaultPhotoUrl, none, none⟩,
       otpDelete (otpSet store (lowerStr email) ⟨otp, now + 5 * 60 * 1000⟩)
         (lowerStr email),
       fun e => if e = lowerStr email then
         some ⟨jsTrim name, lowerStr email, .hashed password,
               defaultPhotoUrl, none, none⟩ else users2 e) := by
    simp [verifyOtp, hvv, otpSet_self, hexp, hnone2, userSave]
  rw [hver]
  refine ⟨rfl, by simp [otpDelete], by simp, ?_⟩
  intro now3 users3
  rw [verifyOtp_notFound now3 name email password otp users3 _ hvv
    (by simp [otpDelete])]

/-- C1 witness: concrete run of the request/verify/verify-again sequence. -/
theorem otp_request_then_verify_succeeds_exactly_once_witness :
    validVerifyInput "Ann" "a@b.c" "secret7" "123456" = true ∧
    (verifyOtp 1 "Ann" "a@b.c" "secret7" "123456" (fun _ => none)
        (requestOtp 0 "a@b.c" "123456" (fun _ => none) (fun _ => none)).2).1 =
      .created ⟨"Ann", "a@b.c", .hashed "secret7", defaultPhotoUrl, none, none⟩ := by
  refine ⟨by decide, ?_⟩
  have h := otp_request_then_verify_succeeds_exactly_once 0 1 "Ann" "a@b.c"
    "secret7" "123456" (fun _ => none) (fun _ => none)
    (by decide) (by decide) (by omega)
  have h2 := (h.2.2 (fun _ => none) (by decide)).1
  simpa [show jsTrim "Ann" = "Ann" from by decide,
         show lowerStr "a@b.c" = "a@b.c" from by decide] using h2

/-- C2: a `verify-otp` with a wrong 6-digit code on a live pending entry
answers the mismatch error and returns the store (and user database)
untouched, so a later `verify-otp` with the right code at or before expiry
still creates the user; a `verify-otp` on a missing entry or after expiry
answers the not-found-or-expired error and leaves the key deleted. -/
theorem otp_mismatch_keeps_pending_entry
    (now now2 : Nat) (name email password code wrong : String)
    (users users2 : String → Option User) (store : OtpStore) (exp : Nat)
    (hvw : validVerifyInput name email password wrong = true)
    (hvc : validVerifyInput name email password code = true)
    (hstore : store (lowerStr email) = some ⟨code, exp⟩)
    (hne : wrong ≠ code)
    (hnow : now ≤ exp) (hnow2 : now2 ≤ exp)
    (hnoUser : users2 (lowerStr email) = none) :
    verifyOtp now name email password wrong users store =
      (.mismatch, store, users) ∧
    (verifyOtp now2 name email password code users2 store).1 =
      .created ⟨jsTrim name, lowerStr email, .hashed password,
                defaultPhotoUrl, none, none⟩ ∧
    (∀ st : OtpStore, st (lowerStr email) = none →
      (verifyOtp now name email password code users st).1 = .notFoundOrExpired ∧
      (verifyOtp now name email password code users st).2.1 (lowerStr email) =
        none) ∧
    (∀ now3 : Nat, exp < now3 →
      (verifyOtp now3 name email password code users store).1 =
        .notFoundOrExpired ∧
      (verifyOtp now3 name email password code users store).2.1 (lowerStr email) =
        none) := by
  have hexp : ¬ (exp < now) := by omega
  have hexp2 : ¬ (exp < now2) := by omega
  have hwne : (code != wrong) = true := by
    simp [bne_iff_ne]
    exact fun h => hne h.symm
  refine ⟨?_, ?_, ?_, ?_⟩
  · simp [verifyOtp, hvw, hstore, hexp, hwne]
  · simp [verifyOtp, hvc, hstore, hexp2, hnoUser, userSave]
  · intro st hst
    constructor
    · simp [verifyOtp, hvc, hst]
    · simp [verifyOtp, hvc, hst, otpDelete]
  · intro now3 h3
    constructor
    · simp [verifyOtp, hvc, hstore, h3]
    · simp [verifyOtp, hvc, hstore, h3, otpDelete]

/-- C2 witness: a wrong code against a stored entry leaves the whole state
untouched. -/
theorem otp_mismatch_keeps_pending_entry_witness :
    validVerifyInput "Ann" "a@b.c" "secret7" "654321" = true ∧
    (verifyOtp 0 "Ann" "a@b.c" "secret7" "654321" (fun _ => none)
      (fun e => if e = "a@b.c" then some ⟨"123456", 300000⟩ else none)) =
      (.mismatch,
       (fun e => if e = "a@b.c" then some ⟨"123456", 300000⟩ else none),
       (fun _ => none)) := by
  refine ⟨by decide, ?_⟩
  exact (otp_mismatch_keeps_pending_entry 0 1 "Ann" "a@b.c" "secret7" "123456"
    "654321" (fun _ => none) (fun _ => none)
    (fun e => if e = "a@b.c" then some ⟨"123456", 300000⟩ else none) 300000
    (by decide) (by decide) (by decide) (by decide) (by omega) (by omega)
    (by decide)).1

/-- C3: with a valid token and a policy-conforming password, the reset
route persists exactly the bcrypt-hashed password that the `verify-otp`
user-creation path would produce for the same plaintext — never the raw
password — and clears both reset-token fields, so the token is single-use.
The pre-save hashing hook lives in `models/User.js`, which is modelled from
the spec (see `userSave`). -/
theorem resetPassword_same_hashing_path_as_signup
    (now : Nat) (tok pw confirm : String) (db : List User) (u : User)
    (hpw : pw ≠ "") (hc : confirm = pw) (hlen : 6 ≤ pw.length)
    (hfind : findOneByResetToken db (sha256Hex tok) now = some u) :
    resetPassword now tok pw confirm db =
      .ok { u with password := .hashed pw,
                   passwordResetToken := none,
                   passwordResetExpires := none } ∧
    (∀ s : String,
      ({ u with password := Pw.hashed pw,
                passwordResetToken := none,
                passwordResetExpires := none } : User).password ≠ Pw.plain s) ∧
    (∀ (now2 : Nat) (name email code : String)
       (users2 : String → Option User) (store2 : OtpStore) (v : User),
       (verifyOtp now2 name email pw code users2 store2).1 = .created v →
       v.password =
         ({ u with password := Pw.hashed pw,
                   passwordResetToken := none,
                   passwordResetExpires := none } : User).password) := by
  have hne : confirm ≠ "" := by rw [hc]; exact hpw
  have hlt : ¬ (pw.length < 6) := by omega
  refine ⟨?_, ?_, ?_⟩
  · simp [resetPassword, hpw, hne, hlt, hc, hfind, userSave]
  · intro s; simp
  · intro now2 name email code users2 store2 v hv
    unfold verifyOtp at hv
    by_cases h1 : validVerifyInput name email pw code = true
    · rw [h1] at hv
      simp only [Bool.not_true, Bool.false_eq_true, if_false] at hv
      cases hst : store2 (lowerStr email) with
      | none => rw [hst] at hv; simp at hv
      | some entry =>
        rw [hst] at hv
        by_cases h2 : entry.expires < now2
        · simp [h2] at hv
        · simp only [h2, if_false] at hv
          by_cases h3 : (entry.otp != code) = true
          · simp [h3] at hv
          · simp only [h3, if_false] at hv
            cases hu : users2 (lowerStr email) with
            | some w => rw [hu] at hv; simp at hv
            | none =>
                rw [hu] at hv
                simp only [Bool.false_eq_true, if_false,
                  VerifyResult.created.injEq] at hv
                rw [← hv]
                simp [userSave]
    · have h1' : validVerifyInput name email pw code = false := by
        revert h1; cases validVerifyInput name email pw code <;> simp
      rw [h1'] at hv
      simp at hv

/-- C3 witness: a concrete reset against a stored token, hashed and
cleared. -/
theorem resetPassword_same_hashing_path_as_signup_witness :
    findOneByResetToken [sampleResetUser] (sha256Hex "tok123") 0 =
      some sampleResetUser ∧
    resetPassword 0 "tok123" "newpass" "newpass" [sampleResetUser] =
      .ok { sampleResetUser with password := .hashed "newpass",
                                 passwordResetToken := none,
                                 passwordResetExpires := none } := by
  refine ⟨by decide, ?_⟩
  exact (resetPassword_same_hashing_path_as_signup 0 "tok123" "newpass"
    "newpass" [sampleResetUser] sampleResetUser
    (by decide) rfl (by decide) (by decide)).1

/-- C4 counterexample: an upstream safety block on a chat turn is NOT
surfaced as an error — the route answers 200 with the failure text as the
answer, refuting the claim that upstream model failures are surfaced as
errors rather than a successful answer. -/
theorem chat_upstream_failure_returns_success_counterexample :
    (postConversationMessage 7 "hi" (some ⟨[], 0⟩) (.model .finishSafety)).1 =
      .ok "I encountered an issue: Response generation stopped due to safety settings.. Please try again." ∧
    ¬ ∃ st m, (postConversationMessage 7 "hi" (some ⟨[], 0⟩)
        (.model .finishSafety)).1 = .errStatus st m := by
  refine ⟨by decide, ?_⟩
  rintro ⟨st, m, hem⟩
  have h1 : (postConversationMessage 7 "hi" (some ⟨[], 0⟩)
      (.model .finishSafety)).1 =
      .ok "I encountered an issue: Response generation stopped due to safety settings.. Please try again." := by
    decide
  rw [h1] at hem
  cases hem

/-- C4 (amended): a model call exceeding the 45000 ms deadline is surfaced
as a distinct 408 timeout error; but every upstream model failure (safety
block, empty/no usable text, other call failure) is caught inside
`generateChatbotAnswer` and returned as a SUCCESSFUL 200 answer whose text
embeds the distinct failure message, not as an error response. -/
theorem chat_turn_failure_taxonomy_amended
    (now : Nat) (prompt : String) (conv : Conversation)
    (hp : jsTrim prompt ≠ "") :
    (postConversationMessage now prompt (some conv) .timeout).1 =
      .errStatus 408 "Chatbot request timed out" ∧
    chatTimeoutMs = 45000 ∧
    (∀ g : GeminiOutcome, g.isFailure = true →
      (postConversationMessage now prompt (some conv) (.model g)).1 =
        .ok ("I encountered an issue: " ++ geminiErrMsg g ++
             ". Please try again.")) ∧
    (geminiErrMsg .finishSafety ≠ geminiErrMsg .finishMaxTokens ∧
     geminiErrMsg .finishSafety ≠ geminiErrMsg .noText ∧
     geminiErrMsg .finishMaxTokens ≠ geminiErrMsg .noText) := by
  refine ⟨?_, rfl, ?_, by decide, by decide, by decide⟩
  · simp [postConversationMessage, hp, thrownError]
    decide
  · intro g hg
    have hans : generateChatbotAnswer prompt g =
        ⟨"I encountered an issue: " ++ geminiErrMsg g ++
         ". Please try again."⟩ := by
      cases g with
      | ok t => simp [GeminiOutcome.isFailure] at hg
      | _ => simp [generateChatbotAnswer, hp]
    have hne : jsTrim ("I encountered an issue: " ++ geminiErrMsg g ++
        ". Please try again.") ≠ "" := by
      apply jsTrim_ne_empty (c := 'I')
      · rw [String.data_append, String.data_append]
        exact List.mem_append.2 (Or.inl (List.mem_append.2 (Or.inl (by decide))))
      · decide
    simp [postConversationMessage, hp, hans, hne]

/-- C4 witness: one concrete upstream failure answered as a 200 success. -/
theorem chat_turn_failure_taxonomy_amended_witness :
    jsTrim "hi" ≠ "" ∧
    GeminiOutcome.noText.isFailure = true ∧
    (postConversationMessage 0 "hi" (some ⟨[], 0⟩) (.model .noText)).1 =
      .ok ("I encountered an issue: " ++ geminiErrMsg .noText ++
           ". Please try again.") := by
  refine ⟨by decide, by decide, ?_⟩
  exact (chat_turn_failure_taxonomy_amended 0 "hi" ⟨[], 0⟩ (by decide)).2.2.1
    .noText (by decide)

/-- C5: chat-turn persistence is atomic — on an existing conversation the
route either appends the (user, bot) message pair together and refreshes
the activity timestamp (exactly when it answers 200), or leaves the
conversation untouched; in particular a model failure or timeout never
persists the user message alone. -/
theorem chat_turn_persistence_atomic
    (now : Nat) (prompt : String) (conv : Conversation) (oc : TurnOutcome) :
    (∀ a, (postConversationMessage now prompt (some conv) oc).1 = .ok a →
       (postConversationMessage now prompt (some conv) oc).2 =
         some ⟨conv.messages ++ [⟨"user", jsTrim prompt, now⟩, ⟨"bot", a, now⟩],
               now⟩) ∧
    ((∀ a, (postConversationMessage now prompt (some conv) oc).1 ≠ .ok a) →
       (postConversationMessage now prompt (some conv) oc).2 = some conv) := by
  by_cases hp : jsTrim prompt = ""
  · refine ⟨?_, ?_⟩
    · intro a ha
      simp [postConversationMessage, hp] at ha
    · intro _
      simp [postConversationMessage, hp]
  · cases oc with
    | timeout =>
        refine ⟨?_, ?_⟩
        · intro a ha
          simp [postConversationMessage, hp, thrownError] at ha
        · intro _
          simp [postConversationMessage, hp, thrownError]
    | model g =>
        by_cases hr : jsTrim (generateChatbotAnswer prompt g).answer = ""
        · refine ⟨?_, ?_⟩
          · intro a ha
            simp [postConversationMessage, hp, hr, thrownError] at ha
          · intro _
            simp [postConversationMessage, hp, hr, thrownError]
        · refine ⟨?_, ?_⟩
          · intro a ha
            simp only [postConversationMessage, hp, hr, if_neg, if_false]
              at ha ⊢
            simp at ha ⊢
            exact ha
          · intro hnot
            exfalso
            exact hnot (generateChatbotAnswer prompt g).answer
              (by simp [postConversationMessage, hp, hr])

/-- C5 witness: a successful concrete turn appends exactly the pair. -/
theorem chat_turn_persistence_atomic_witness :
    (postConversationMessage 1 "hi" (some ⟨[], 0⟩) (.model (.ok "Hi."))).1 =
      .ok "Hi." ∧
    (postConversationMessage 1 "hi" (some ⟨[], 0⟩) (.model (.ok "Hi."))).2 =
      some ⟨[⟨"user", jsTrim "hi", 1⟩, ⟨"bot", "Hi.", 1⟩], 1⟩ := by
  refine ⟨by decide, ?_⟩
  have h := (chat_turn_persistence_atomic 1 "hi" ⟨[], 0⟩
    (.model (.ok "Hi."))).1 "Hi." (by decide)
  simpa using h

/-- C6: `forgot-password` answers the very same 200 response whether or not
the e-mail has an account, and its body never contains a 64-character hex
token — in particular never the raw reset token. -/
theorem forgotPassword_identical_response_no_token_leak
    (now now' : Nat) (email tok tok' : String) (u : User)
    (h : email ≠ "") :
    (forgotPassword now email (some u) tok).1 =
      (forgotPassword now' email none tok').1 ∧
    (forgotPassword now email (some u) tok).1.status = 200 ∧
    (∀ t : String, t.data.length = 64 → t.data.all isHexDigitChar = true →
      ¬ ∃ s r : List Char,
        (forgotPassword now email (some u) tok).1.body.data =
          s ++ t.data ++ r) := by
  refine ⟨by simp [forgotPassword, h], by simp [forgotPassword, h], ?_⟩
  intro t hlen hall ⟨s, r, heq⟩
  have hbody : (forgotPassword now email (some u) tok).1.body =
      forgotPasswordGenericMsg := by
    simp [forgotPassword, h]
  rw [hbody] at heq
  have hrun := hasHexRun_of_append s t.data r hlen hall
  rw [← heq] at hrun
  have : hasHexRun forgotPasswordGenericMsg.data 64 = false := by decide
  rw [this] at hrun
  exact Bool.false_ne_true hrun

/-- C6 witness: a concrete 64-hex token does not occur in the concrete
response body. -/
theorem forgotPassword_identical_response_no_token_leak_witness :
    ("rae@example.com" : String) ≠ "" ∧
    tok64.data.length = 64 ∧
    ¬ ∃ s r : List Char,
      (forgotPassword 0 "rae@example.com" (some sampleResetUser)
        "sometoken").1.body.data = s ++ tok64.data ++ r := by
  refine ⟨by decide, by decide, ?_⟩
  exact (forgotPassword_identical_response_no_token_leak 0 1 "rae@example.com"
    "sometoken" "t2" sampleResetUser (by decide)).2.2 tok64 (by decide)
    (by decide)

/-- C7 counterexample: a whitespace-only prompt to `POST /api/chatbot` is
NOT rejected with 400 — the route's `if (!prompt)` check passes and the
canned answer comes back with status 200, refuting the claim. -/
theorem chatbot_whitespace_prompt_counterexample :
    chatbotRoute " " (.ok "whatever") =
      (200, "Please provide a question or topic to discuss.") ∧
    (chatbotRoute " " (.ok "whatever")).1 ≠ 400 := by
  exact ⟨by decide, by decide⟩

/-- C7 (amended): only a missing/empty (falsy) prompt makes
`POST /api/chatbot` answer 400; a non-empty prompt that is empty after
trimming passes the route check and gets a 200 whose answer is the
generator's canned "Please provide a question or topic to discuss."
message, not an error. -/
theorem chatbot_prompt_validation_amended
    (oc : GeminiOutcome) (prompt : String)
    (hne : prompt ≠ "") (hws : jsTrim prompt = "") :
    chatbotRoute "" oc = (400, "Prompt is required.") ∧
    chatbotRoute prompt oc =
      (200, "Please provide a question or topic to discuss.") := by
  constructor
  · simp [chatbotRoute]
  · simp [chatbotRoute, generateChatbotAnswer, hne, hws]

/-- C7 witness: the single-space prompt at the amended theorem. -/
theorem chatbot_prompt_validation_amended_witness :
    (" " : String) ≠ "" ∧ jsTrim " " = "" ∧
    chatbotRoute " " (.ok "x") =
      (200, "Please provide a question or topic to discuss.") := by
  refine ⟨by decide, by decide, ?_⟩
  exact (chatbot_prompt_validation_amended (.ok "x") " "
    (by decide) (by decide)).2

/-- C8: the plain-text normalizer turns the markdown/HTML sample into a
numbered plain-text answer free of asterisk and angle-bracket characters
while preserving the sentences, returns the single short sentence
unmodified, and in general renders 3 or more segments as numbered lines
(with any model-emitted leading marker stripped by `renderNumbered`) while
fewer than 3 segments are joined as plain prose. -/
theorem formatResponsePlainText_normalizer_spec :
    formatResponsePlainText
        "**Hello** world.\n\n<b>This</b> is great! Also, nice." =
      "1. Hello world.\n2. This is great!\n3. Also, nice." ∧
    ((formatResponsePlainText
        "**Hello** world.\n\n<b>This</b> is great! Also, nice.").data.all
      fun c => !(c == '*' || c == '<' || c == '>')) = true ∧
    formatResponsePlainText "Hi there." = "Hi there." ∧
    ∀ text : String, linesOf text ≠ [] →
      ((segmentsOf text).length < 3 →
        formatResponsePlainText text = joinedPlain (segmentsOf text)) ∧
      (3 ≤ (segmentsOf text).length →
        formatResponsePlainText text =
          String.mk (renderNumbered (segmentsOf text))) := by
  refine ⟨by decide, by decide, by decide, ?_⟩
  intro text h
  constructor
  · intro hlt
    rw [formatResponsePlainText, if_neg h, if_pos hlt]
  · intro hge
    have : ¬ (segmentsOf text).length < 3 := by omega
    rw [formatResponsePlainText, if_neg h, if_neg this]

/-- C8 witness: the markdown/HTML sample instantiates the general
numbering branch. -/
theorem formatResponsePlainText_normalizer_spec_witness :
    linesOf "**Hello** world.\n\n<b>This</b> is great! Also, nice." ≠ [] ∧
    3 ≤ (segmentsOf
      "**Hello** world.\n\n<b>This</b> is great! Also, nice.").length ∧
    formatResponsePlainText
        "**Hello** world.\n\n<b>This</b> is great! Also, nice." =
      String.mk (renderNumbered (segmentsOf
        "**Hello** world.\n\n<b>This</b> is great! Also, nice.")) := by
  refine ⟨by decide, by decide, ?_⟩
  exact ((formatResponsePlainText_normalizer_spec.2.2.2
    "**Hello** world.\n\n<b>This</b> is great! Also, nice.") (by decide)).2
    (by decide)

/-- C9 counterexample: the OTP store key is NOT the trimmed e-mail — an
e-mail with surrounding whitespace is rejected outright (its `request-otp`
is a 400 that stores nothing at the trimmed key, and its `verify-otp` is
an invalid-input 400 even when a pending entry for the trimmed key
exists), so whitespace variants do not address the same pending entry as
the claim states. -/
theorem otp_store_key_not_trimmed_counterexample :
    (requestOtp 0 " A@b.c" "123456" (fun _ => none) (fun _ => none)).1 =
      .invalidEmail ∧
    (requestOtp 0 " A@b.c" "123456" (fun _ => none) (fun _ => none)).2
      "a@b.c" = none ∧
    (requestOtp 0 "A@b.c" "123456" (fun _ => none) (fun _ => none)).2
      "a@b.c" = some ⟨"123456", 300000⟩ ∧
    (verifyOtp 0 "Ann" " A@b.c" "secret7" "123456" (fun _ => none)
      (fun e => if e = "a@b.c" then some ⟨"123456", 300000⟩ else none)).1 =
      .invalidInput := by
  refine ⟨by decide, by decide, by decide, by decide⟩

/-- C9 (amended): the OTP store is keyed by the lowercased (NOT trimmed)
input e-mail, so two calls whose e-mails differ only in case address the
same pending entry, while an e-mail containing any whitespace fails the
shape check of both routes and never addresses the store at all. -/
theorem otp_store_key_lowercase_only_amended
    (now : Nat) (email otp : String)
    (users : String → Option User) (store : OtpStore)
    (hv : validEmail email = true)
    (hnoUser : users (lowerStr email) = none) :
    (requestOtp now email otp users store).2 (lowerStr email) =
      some ⟨otp, now + 5 * 60 * 1000⟩ ∧
    (∀ k, k ≠ lowerStr email →
      (requestOtp now email otp users store).2 k = store k) ∧
    (∀ e2 : String, validEmail e2 = true → lowerStr e2 = lowerStr email →
      (requestOtp now e2 otp users store).2 (lowerStr email) =
        some ⟨otp, now + 5 * 60 * 1000⟩) ∧
    (∀ e : String, (∃ c ∈ e.data, isJsSpace c = true) →
      requestOtp now e otp users store = (.invalidEmail, store) ∧
      ∀ (name pw code : String) (us : String → Option User) (st : OtpStore),
        verifyOtp now name e pw code us st = (.invalidInput, st, us)) := by
  refine ⟨by simp [requestOtp, hv, hnoUser, otpSet], ?_, ?_, ?_⟩
  · intro k hk
    simp [requestOtp, hv, hnoUser, otpSet, hk]
  · intro e2 hv2 hlow
    rw [← hlow]
    simp [requestOtp, hv2, hlow, hnoUser, otpSet]
  · intro e ⟨c, hc, hw⟩
    have hbad := validEmail_false_of_space hc hw
    constructor
    · simp [requestOtp, hbad]
    · intro name pw code us st
      have hvv : validVerifyInput name e pw code = false := by
        unfold validVerifyInput
        simp [hbad]
      simp [verifyOtp, hvv]

/-- C9 witness: a mixed-case e-mail is stored under its lowercased key. -/
theorem otp_store_key_lowercase_only_amended_witness :
    validEmail "A@b.c" = true ∧
    (requestOtp 3 "A@b.c" "123456" (fun _ => none) (fun _ => none)).2
      (lowerStr "A@b.c") = some ⟨"123456", 3 + 5 * 60 * 1000⟩ := by
  refine ⟨by decide, ?_⟩
  exact (otp_store_key_lowercase_only_amended 3 "A@b.c" "123456"
    (fun _ => none) (fun _ => none) (by decide) (by decide)).1

/-- C10: a `verify-otp` whose code matches but whose e-mail got a user in
the interim answers the conflict error with the pending entry already
deleted and the user database untouched — the code is consumed even though
this call created no user, so re-using it fails with the
not-found-or-expired error. -/
theorem verifyOtp_conflict_race_consumes_otp
    (now : Nat) (name email password code : String)
    (users : String → Option User) (store : OtpStore) (exp : Nat) (u : User)
    (hv : validVerifyInput name email password code = true)
    (hstore : store (lowerStr email) = some ⟨code, exp⟩)
    (hnow : now ≤ exp)
    (huser : users (lowerStr email) = some u) :
    verifyOtp now name email password code users store =
      (.conflict, otpDelete store (lowerStr email), users) ∧
    (verifyOtp now name email password code users store).2.1 (lowerStr email) =
      none ∧
    (∀ (now2 : Nat) (users2 : String → Option User),
      (verifyOtp now2 name email password code users2
        (verifyOtp now name email password code users store).2.1).1 =
        .notFoundOrExpired) := by
  have hexp : ¬ (exp < now) := by omega
  have h1 : verifyOtp now name email password code users store =
      (.conflict, otpDelete store (lowerStr email), users) := by
    simp [verifyOtp, hv, hstore, hexp, huser]
  refine ⟨h1, ?_, ?_⟩
  · rw [h1]; simp [otpDelete]
  · intro now2 users2
    rw [h1]
    rw [verifyOtp_notFound now2 name email password code users2 _ hv
      (by simp [otpDelete])]

/-- C10 witness: a concrete race — matching code, user already present. -/
theorem verifyOtp_conflict_race_consumes_otp_witness :
    (verifyOtp 0 "Ann" "a@b.c" "secret7" "123456"
      (fun e => if e = "a@b.c" then
        some ⟨"Bob", "a@b.c", .hashed "zzzzzz", defaultPhotoUrl, none, none⟩
        else none)
      (fun e => if e = "a@b.c" then some ⟨"123456", 300000⟩ else none)).1 =
      .conflict := by
  have h := verifyOtp_conflict_race_consumes_otp 0 "Ann" "a@b.c" "secret7"
    "123456"
    (fun e => if e = "a@b.c" then
      some ⟨"Bob", "a@b.c", .hashed "zzzzzz", defaultPhotoUrl, none, none⟩
      else none)
    (fun e => if e = "a@b.c" then some ⟨"123456", 300000⟩ else none) 300000
    (⟨"Bob", "a@b.c", .hashed "zzzzzz", defaultPhotoUrl, none, none⟩)
    (by decide) (by decide) (by omega) (by decide)
  rw [h.1]
